import Mathlib

/-
Verification of the Cool-Companion inventory tracker.

Shallow embedding of the parts of the code the claims refer to:
  src/models/item.py            (Item model, validation, derived status)
  src/repositories/item_repository.py   (row conversion, read queries, toggle)
  src/repositories/barcode_repository.py (cache lookup/save/cleanup)
  src/services/barcode_service.py        (lookup chain, cache population)
  src/models/database.py        (connection pool close_all / get_connection)
  src/services/camera_service.py (barcode debounce state)

Calendar dates are modelled as integers counting days from an arbitrary
epoch; "today" is passed explicitly wherever the Python code calls
date.today().  Python exceptions raised by validation are modelled with
Except String; store-level (sqlite3) errors are modelled explicitly where
a claim depends on them.
-/

/-- A calendar date, as a count of days from an arbitrary epoch. -/
abbrev Day := Int

/-- Model of Python's regex class \w (word character): alphanumeric or
underscore.  (The source uses the default Unicode flag; barcodes are ASCII,
and the claims speak of "word characters", so the ASCII reading is used.) -/
def isWordChar (c : Char) : Bool := c.isAlphanum || c == '_'

/-- Characters the item-name regex in Item._validate_name accepts:
`^[a-zA-Z0-9\s\-\.\,\'\&\(\)]+$` (src/models/item.py line 36). -/
def isNameChar (c : Char) : Bool :=
  c.isAlphanum || c.isWhitespace || c == '-' || c == '.' || c == ',' ||
  c == '\'' || c == '&' || c == '(' || c == ')'

/-- Item._sanitize_barcode's substitution re.sub(r'[^\w\-]', '', barcode)
(src/models/item.py line 83): drop every character that is neither a word
character nor a hyphen. -/
def sanitizeBarcode (b : String) : String :=
  String.mk (b.data.filter (fun c => isWordChar c || c == '-'))

/-- The Item dataclass (src/models/item.py) after __post_init__ has run:
name stripped and validated, barcode sanitized, opened_date normalised. -/
structure Item where
  id : Option Nat
  name : String
  expiry_date : Day
  barcode : Option String
  quantity : Int
  is_opened : Bool
  opened_date : Option Day
deriving Repr, DecidableEq

/-- Item.is_expired (src/models/item.py lines 88-91): expiry strictly
before today. -/
def Item.is_expired (it : Item) (today : Day) : Bool :=
  it.expiry_date < today

/-- Item.days_until_expiry (src/models/item.py lines 93-96). -/
def Item.days_until_expiry (it : Item) (today : Day) : Int :=
  it.expiry_date - today

/-- Item.is_expiring_soon (src/models/item.py lines 98-102):
0 <= days_until_expiry <= 3. -/
def Item.is_expiring_soon (it : Item) (today : Day) : Bool :=
  decide (0 ≤ it.days_until_expiry today) && decide (it.days_until_expiry today ≤ 3)

/-- Item.status (src/models/item.py lines 104-114): precedence
expired, expiring_soon, opened, fresh. -/
def Item.status (it : Item) (today : Day) : String :=
  if it.is_expired today then "expired"
  else if it.is_expiring_soon today then "expiring_soon"
  else if it.is_opened then "opened"
  else "fresh"

/-- Python's str.strip(): drop leading and trailing whitespace. -/
def pyStrip (s : String) : String :=
  String.mk (((s.data.dropWhile Char.isWhitespace).reverse.dropWhile
    Char.isWhitespace).reverse)

/-- Item._validate_name (src/models/item.py lines 25-37) applied to a raw
name: strip whitespace, reject empty, overlong (> 100) or invalid
characters; returns the stripped name. -/
def validateName (name : String) : Except String String :=
  let stripped := pyStrip name
  if stripped = "" then .error "Item name cannot be empty"
  else if stripped.length > 100 then .error "Item name too long (max 100 characters)"
  else if ¬ stripped.data.all isNameChar then .error "Item name contains invalid characters"
  else .ok stripped

/-- Item._validate_quantity (src/models/item.py lines 39-51) on an integer
quantity: must lie in 1..999. -/
def validateQuantity (q : Int) : Except String Int :=
  if q < 1 then .error "Quantity must be at least 1"
  else if q > 999 then .error "Quantity too large (max 999)"
  else .ok q

/-- The opened_date normalisation of Item._validate_dates
(src/models/item.py lines 69-77): an opened item without an opened date
gets today; an unopened item's opened date is cleared; a future opened
date is rejected. -/
def validateOpenedDate (today : Day) (is_opened : Bool) (opened_date : Option Day) :
    Except String (Option Day) :=
  let od := if is_opened then (match opened_date with
                               | none => some today
                               | some d => some d)
            else none
  match od with
  | some d => if d > today then .error "Opened date cannot be in the future" else .ok (some d)
  | none => .ok none

/-- Item._sanitize_barcode (src/models/item.py lines 79-86): a missing or
empty barcode is left untouched (Python truthiness); otherwise the barcode
is sanitized first, and only the sanitized form is length-checked
(max 50). -/
def processBarcode (barcode : Option String) : Except String (Option String) :=
  match barcode with
  | none => .ok none
  | some b =>
    if b = "" then .ok (some b)
    else
      let s := sanitizeBarcode b
      if s.length > 50 then .error "Barcode too long (max 50 characters)"
      else .ok (some s)

/-- Constructing an Item (src/models/item.py __post_init__, lines 18-23):
validate name, quantity, dates, then sanitize the barcode; any failure
raises ValueError, modelled as Except.error. -/
def mkItem (today : Day) (name : String) (expiry_date : Day) (barcode : Option String)
    (quantity : Int) (is_opened : Bool) (opened_date : Option Day) (id : Option Nat) :
    Except String Item := do
  let n ← validateName name
  let q ← validateQuantity quantity
  let od ← validateOpenedDate today is_opened opened_date
  let bc ← processBarcode barcode
  .ok { id := id, name := n, expiry_date := expiry_date, barcode := bc,
        quantity := q, is_opened := is_opened, opened_date := od }

/-
Item repository: row conversion and read queries
(src/repositories/item_repository.py).
-/

/-- A date cell as fetched from the store: SQL NULL, a text that parses as an
ISO date, or corrupted text that date.fromisoformat rejects. -/
inductive RawDate
  | null
  | valid (d : Day)
  | corrupt
deriving Repr, DecidableEq

/-- A fetched row of the items table, as _row_to_item reads it
(src/repositories/item_repository.py lines 421-458). -/
structure ItemRow where
  id : Nat
  name : String
  expiry_date : RawDate
  barcode : Option String
  quantity : Option Int
  is_opened : Int
  opened_date : RawDate
deriving Repr, DecidableEq

/-- The expiry-date parse of _row_to_item (lines 433-439): a NULL or
corrupted cell falls back to today rather than raising. -/
def parseExpiryDate (today : Day) : RawDate → Day
  | .valid d => d
  | _ => today

/-- The opened-date parse of _row_to_item (lines 441-448): NULL stays None,
a corrupted cell is left as None. -/
def parseOpenedDate : RawDate → Option Day
  | .valid d => some d
  | _ => none

/-- Python's `row[quantity-column] or 1` (line 455): NULL and 0 are falsy,
so both become 1. -/
def quantityOr1 : Option Int → Int
  | none => 1
  | some q => if q = 0 then 1 else q

/-- ItemRepository._row_to_item (lines 421-458): parse the date cells with
their fallbacks, then construct the Item; only the Item validation itself
can raise here. -/
def rowToItem (today : Day) (r : ItemRow) : Except String Item :=
  mkItem today r.name (parseExpiryDate today r.expiry_date) r.barcode
    (quantityOr1 r.quantity) (r.is_opened ≠ 0) (parseOpenedDate r.opened_date)
    (some r.id)

/-- The per-row loop shared by every read query (e.g. get_all, lines 50-58):
a row whose conversion raises is logged and skipped, the others are kept in
order.  The surrounding sqlite error handler (lines 60-65) returns [] on a
store error and is not modelled: the claims quantify over fetched rows. -/
def ItemRepository.get_all (today : Day) (rows : List ItemRow) : List Item :=
  rows.filterMap (fun r => (rowToItem today r).toOption)

/-- ItemRepository.get_by_id (lines 67-91): find the row; a conversion
error is caught by the broad exception handler and yields None. -/
def ItemRepository.get_by_id (today : Day) (db : List ItemRow) (item_id : Nat) :
    Option Item :=
  match db.find? (fun r => r.id == item_id) with
  | some r => (rowToItem today r).toOption
  | none => none

/-- Count the `?` parameter markers of an SQL text the way SQLite tokenizes
it: a `?` between single quotes is part of a string literal, not a
parameter.  (A doubled quote inside a literal toggles the state twice, so
the count is unaffected.) -/
def sqlPlaceholdersAux : List Char → Bool → Nat
  | [], _ => 0
  | c :: rest, inStr =>
    if c = '\'' then sqlPlaceholdersAux rest (!inStr)
    else if c = '?' ∧ inStr = false then 1 + sqlPlaceholdersAux rest inStr
    else sqlPlaceholdersAux rest inStr

/-- Parameter markers of an SQL string. -/
def sqlPlaceholders (s : String) : Nat := sqlPlaceholdersAux s.data false

/-- The SQL text of ItemRepository.get_expiring_soon (lines 105-110),
whitespace collapsed.  The `?` stands inside the string literal
`'+? days'`, so it is not a parameter marker. -/
def expiringSoonSql : String :=
  "SELECT * FROM items WHERE expiry_date <= date('now', '+? days') AND expiry_date >= date('now') ORDER BY expiry_date"

/-- Insertion of a row into a list sorted by expiry (ascending), for the
ORDER BY expiry_date of the query. -/
def insertByExpiry (today : Day) (r : ItemRow) : List ItemRow → List ItemRow
  | [] => [r]
  | x :: xs =>
    if parseExpiryDate today r.expiry_date ≤ parseExpiryDate today x.expiry_date
    then r :: x :: xs
    else x :: insertByExpiry today r xs

/-- The rows the WHERE clause of get_expiring_soon describes, ordered by
expiry date: date(now) <= expiry <= date(now, +days days). -/
def expiringRows (today : Day) (days : Int) (rows : List ItemRow) : List ItemRow :=
  (rows.filter (fun r => match r.expiry_date with
     | .valid d => decide (today ≤ d) && decide (d ≤ today + days)
     | _ => false)).foldr (insertByExpiry today) []

/-- ItemRepository.get_expiring_soon (lines 93-127): execute the query with
one supplied binding.  sqlite3 first checks the binding count against the
statement's parameter markers and raises ProgrammingError (a subclass of
sqlite3.Error) on a mismatch; the except-branch at lines 122-124 catches it
and returns []. -/
def ItemRepository.get_expiring_soon (today : Day) (rows : List ItemRow) (days : Int) :
    List Item :=
  if sqlPlaceholders expiringSoonSql = 1 then
    (expiringRows today days rows).filterMap (fun r => (rowToItem today r).toOption)
  else []

/-- ItemRepository.ORDER_BY_COLUMNS (lines 15-21): the allow-list mapping
for ORDER BY column names. -/
def ORDER_BY_COLUMNS : List (String × String) :=
  [("expiry_date", "expiry_date"), ("name", "name"), ("quantity", "quantity"),
   ("created_at", "created_at"), ("updated_at", "updated_at")]

/-- The dict .get with default at line 45: the column actually interpolated
into get_all's query. -/
def orderColumn (order_by : String) : String :=
  (ORDER_BY_COLUMNS.lookup order_by).getD "expiry_date"

/-- The f-string at line 47: the SQL text get_all executes. -/
def getAllSql (order_by : String) : String :=
  "SELECT * FROM items ORDER BY " ++ orderColumn order_by

/-
Item repository: toggle_opened_status (src/repositories/item_repository.py
lines 348-369) with the update it persists through (lines 267-314).
-/

/-- The row UPDATE at lines 283-296 writes for an Item: every stored field
is replaced by the item's current value. -/
def itemToRow (it : Item) (id : Nat) : ItemRow :=
  { id := id, name := it.name, expiry_date := .valid it.expiry_date,
    barcode := it.barcode, quantity := some it.quantity,
    is_opened := if it.is_opened then 1 else 0,
    opened_date := match it.opened_date with
                   | some d => .valid d
                   | none => .null }

/-- ItemRepository.update (lines 267-314): requires an id; rowcount > 0,
hence True, exactly when a row with that id exists; the matching row is
overwritten. -/
def ItemRepository.update (db : List ItemRow) (it : Item) : Bool × List ItemRow :=
  match it.id with
  | none => (false, db)
  | some i =>
    if db.any (fun r => r.id == i) then
      (true, db.map (fun r => if r.id == i then itemToRow it i else r))
    else (false, db)

/-- ItemRepository.toggle_opened_status (lines 348-369): read the item,
flip the flag, set opened_date to today on a transition to opened when it
was unset, clear it on a transition to closed, persist via update. -/
def ItemRepository.toggle_opened_status (today : Day) (db : List ItemRow)
    (item_id : Nat) : Bool × List ItemRow :=
  match ItemRepository.get_by_id today db item_id with
  | none => (false, db)
  | some it =>
    let flipped := !it.is_opened
    let newDate :=
      if flipped ∧ it.opened_date = none then some today
      else if flipped = false then none
      else it.opened_date
    ItemRepository.update db
      { it with is_opened := flipped, opened_date := newDate }

/-
Connection pool (src/models/database.py lines 71-155).
-/

/-- The pool's state: the queue of available connections (opaque handles)
and the closed flag.  Closing a sqlite connection does not raise here, and
any exception it did raise would be caught at lines 151-152. -/
structure PoolState where
  connections : List Nat
  closed : Bool
deriving Repr, DecidableEq

/-- DatabasePool.close_all (lines 137-155): under the lock, a second call
finds _closed set and returns at once (zero connections closed); the first
call marks the pool closed and drains and closes every queued
connection. -/
def DatabasePool.close_all (s : PoolState) : Nat × PoolState :=
  if s.closed then (0, s)
  else (s.connections.length, { connections := [], closed := true })

/-- What an acquisition attempt can yield. -/
inductive AcquireResult
  | conn (c : Nat) (rest : PoolState)
  | blocked
  | poolClosedError
deriving Repr, DecidableEq

/-- The entry of DatabasePool.get_connection (lines 78-81): a closed pool
raises RuntimeError("Database pool is closed") before touching the queue;
otherwise the caller takes a connection, blocking when none is free. -/
def DatabasePool.get_connection (s : PoolState) : AcquireResult :=
  if s.closed then .poolClosedError
  else match s.connections with
       | c :: rest => .conn c { s with connections := rest }
       | [] => .blocked

/-
Barcode cache (src/repositories/barcode_repository.py) and the lookup
service over it (src/services/barcode_service.py).
-/

/-- A row of the barcode_lookup table (timestamps as integers). -/
structure CacheEntry where
  barcode : String
  name : String
  brand : Option String
  category : Option String
  last_used : Int
deriving Repr, DecidableEq

/-- A lookup result dictionary as the repository and service return it. -/
structure LookupResult where
  barcode : String
  name : String
  brand : Option String
  category : Option String
  source : String
deriving Repr, DecidableEq

/-- BarcodeRepository.lookup (src/repositories/barcode_repository.py lines
21-68): an empty barcode misses at once; otherwise the matching row's
last_used is refreshed and, when a row matches, its fields are returned
with source "local". -/
def BarcodeRepository.lookup (now : Int) (cache : List CacheEntry)
    (barcode : String) : Option LookupResult × List CacheEntry :=
  if barcode = "" then (none, cache)
  else
    let cache2 := cache.map (fun e =>
      if e.barcode == barcode then { e with last_used := now } else e)
    match cache2.find? (fun e => e.barcode == barcode) with
    | some e => (some ⟨e.barcode, e.name, e.brand, e.category, "local"⟩, cache2)
    | none => (none, cache2)

/-- INSERT OR REPLACE keyed on the barcode primary key. -/
def insertOrReplace (e : CacheEntry) (cache : List CacheEntry) : List CacheEntry :=
  if cache.any (fun x => x.barcode == e.barcode) then
    cache.map (fun x => if x.barcode == e.barcode then e else x)
  else cache ++ [e]

/-- BarcodeRepository.save (lines 70-107): an empty barcode or name is
rejected; otherwise INSERT OR REPLACE with last_used = now, and the
rowcount of a successful INSERT OR REPLACE is positive, so save reports
True. -/
def BarcodeRepository.save (now : Int) (cache : List CacheEntry)
    (barcode name : String) (brand category : Option String) :
    Bool × List CacheEntry :=
  if barcode = "" ∨ name = "" then (false, cache)
  else (true, insertOrReplace ⟨barcode, name, brand, category, now⟩ cache)

/-- The SQL text of BarcodeRepository.cleanup_old_entries (lines 286-290),
whitespace collapsed.  As in get_expiring_soon, the `?` stands inside the
string literal '-? days'. -/
def cleanupOldEntriesSql : String :=
  "DELETE FROM barcode_lookup WHERE last_used < datetime('now', '-? days') AND barcode NOT LIKE 'PRODUCE_%'"

/-- BarcodeRepository.cleanup_old_entries (lines 274-303): execute the
DELETE with one supplied binding.  On a binding-count mismatch sqlite3
raises ProgrammingError, caught at lines 298-300, returning 0 with the
cache untouched.  Were the binding accepted, the statement would remove
the rows older than the threshold whose barcode does not start with the
produce prefix (the LIKE wildcard _ read literally, as every produce code
spells it). -/
def BarcodeRepository.cleanup_old_entries (now : Int) (cache : List CacheEntry)
    (days : Int) : Nat × List CacheEntry :=
  if sqlPlaceholders cleanupOldEntriesSql = 1 then
    let keep := cache.filter (fun e =>
      ¬ (e.last_used < now - days * 86400 ∧ ¬ e.barcode.startsWith "PRODUCE_"))
    (cache.length - keep.length, keep)
  else (0, cache)

/-- A product as the external OpenFoodFacts strategy yields it
(src/services/barcode_service.py lines 73-87): the name is non-empty by
the product_name truthiness check at line 77. -/
structure ExtProduct where
  name : String
  brand : Option String
  category : Option String
deriving Repr, DecidableEq

/-- BarcodeService.lookup_product (src/services/barcode_service.py lines
115-144): reject an empty barcode; try the local strategy, then the
external one (modelled as an oracle from barcodes to products); a hit
whose source is not "local" is saved back to the cache before being
returned; no hit raises BarcodeNotFoundError. -/
def BarcodeService.lookup_product (now : Int) (cache : List CacheEntry)
    (ext : String → Option ExtProduct) (barcode : String) :
    Except String (LookupResult × List CacheEntry) :=
  if barcode = "" then .error "Barcode cannot be empty"
  else
    match BarcodeRepository.lookup now cache barcode with
    | (some r, cache2) => .ok (r, cache2)
    | (none, cache2) =>
      match ext barcode with
      | some p =>
        let saved := BarcodeRepository.save now cache2 barcode p.name p.brand p.category
        .ok (⟨barcode, p.name, p.brand, p.category, "openfoodfacts"⟩, saved.2)
      | none => .error ("Product not found for barcode: " ++ barcode)

/-
Barcode debounce (src/services/camera_service.py): the per-detection state
shared by scan_barcode_sync (lines 356-372) and _continuous_scan_loop
(lines 437-456).
-/

/-- BARCODE_DEBOUNCE_SECONDS (src/services/camera_service.py line 16). -/
def BARCODE_DEBOUNCE_SECONDS : ℚ := 2

/-- The debounce state: _last_barcode (None initially) and
_last_barcode_time (lines 99-101). -/
structure ScanState where
  last_barcode : Option String
  last_barcode_time : ℚ
deriving Repr, DecidableEq

/-- One decoded code at one instant (lines 441-456 and 360-369): an event
is emitted iff the code differs from the last emitted one or more than the
debounce window has passed since the last emission; an emission records
the code and its time. -/
def debounceStep (s : ScanState) (code : String) (t : ℚ) : Bool × ScanState :=
  if some code ≠ s.last_barcode ∨ t - s.last_barcode_time > BARCODE_DEBOUNCE_SECONDS
  then (true, { last_barcode := some code, last_barcode_time := t })
  else (false, s)

/-
Shared helper lemmas.
-/

/-- Unfolding a successful mkItem: each validator succeeded and produced
the corresponding field; expiry, id and the opened flag are stored as
given. -/
theorem mkItem_ok_elim {today : Day} {name : String} {expiry_date : Day}
    {barcode : Option String} {quantity : Int} {is_opened : Bool}
    {opened_date : Option Day} {id : Option Nat} {it : Item}
    (h : mkItem today name expiry_date barcode quantity is_opened opened_date id = .ok it) :
    validateName name = .ok it.name ∧ validateQuantity quantity = .ok it.quantity ∧
    validateOpenedDate today is_opened opened_date = .ok it.opened_date ∧
    processBarcode barcode = .ok it.barcode ∧
    it.expiry_date = expiry_date ∧ it.id = id ∧ it.is_opened = is_opened := by
  unfold mkItem at h
  cases hn : validateName name <;> rw [hn] at h <;>
    simp only [Bind.bind, Except.bind] at h
  · exact absurd h (by simp)
  cases hq : validateQuantity quantity <;> rw [hq] at h <;>
    simp only [Bind.bind, Except.bind] at h
  · exact absurd h (by simp)
  cases ho : validateOpenedDate today is_opened opened_date <;> rw [ho] at h <;>
    simp only [Bind.bind, Except.bind] at h
  · exact absurd h (by simp)
  cases hb : processBarcode barcode <;> rw [hb] at h <;>
    simp only [Bind.bind, Except.bind] at h
  · exact absurd h (by simp)
  cases h
  simp_all

/-- C2: status is exactly one of the four values, chosen by the precedence
expired > expiring_soon > opened > fresh; an item expiring yesterday is
expired and one expiring in two days is expiring_soon. -/
theorem item_status_precedence (today : Day) (it : Item) :
    (it.status today = "expired" ∨ it.status today = "expiring_soon" ∨
     it.status today = "opened" ∨ it.status today = "fresh") ∧
    (it.status today = "expired" ↔ it.expiry_date < today) ∧
    (it.status today = "expiring_soon" ↔
      (¬ it.expiry_date < today ∧ 0 ≤ it.days_until_expiry today ∧
       it.days_until_expiry today ≤ 3)) ∧
    (it.status today = "opened" ↔
      (¬ it.expiry_date < today ∧
       ¬ (0 ≤ it.days_until_expiry today ∧ it.days_until_expiry today ≤ 3) ∧
       it.is_opened = true)) ∧
    (it.status today = "fresh" ↔
      (¬ it.expiry_date < today ∧
       ¬ (0 ≤ it.days_until_expiry today ∧ it.days_until_expiry today ≤ 3) ∧
       it.is_opened = false)) ∧
    ({ it with expiry_date := today - 1 } : Item).status today = "expired" ∧
    ({ it with expiry_date := today + 2 } : Item).status today = "expiring_soon" := by
  unfold Item.status Item.is_expired Item.is_expiring_soon Item.days_until_expiry
  refine ⟨?_, ?_, ?_, ?_, ?_, ?_, ?_⟩ <;>
    split_ifs <;> simp_all <;> omega

/-- C10: a successfully constructed item with a non-empty barcode stores
only word characters and hyphens, at most 50 of them; and since the length
guard runs after the substitution, a raw barcode longer than 50 characters
passes whenever its sanitized form is 50 characters or fewer. -/
theorem barcode_sanitize_invariant :
    (∀ (today : Day) (name : String) (expiry_date : Day) (bc : String)
       (quantity : Int) (is_opened : Bool) (opened_date : Option Day)
       (id : Option Nat) (it : Item) (b : String),
       mkItem today name expiry_date (some bc) quantity is_opened opened_date id = .ok it →
       it.barcode = some b → b ≠ "" →
       b.data.all (fun c => isWordChar c || c == '-') = true ∧ b.length ≤ 50) ∧
    (∀ bc : String, 50 < bc.length → (sanitizeBarcode bc).length ≤ 50 →
       processBarcode (some bc) = .ok (some (sanitizeBarcode bc))) := by
  constructor
  · intro today name expiry_date bc quantity is_opened opened_date id it b hok hb hne
    obtain ⟨-, -, -, hpb, -, -, -⟩ := mkItem_ok_elim hok
    rw [hb] at hpb
    unfold processBarcode at hpb
    by_cases hbc : bc = ""
    · simp [hbc] at hpb
      exact absurd hpb.symm hne
    · simp only [hbc, if_neg, if_false] at hpb
      split_ifs at hpb with hlen
      · cases hpb
        refine ⟨?_, by omega⟩
        simp only [sanitizeBarcode, List.all_eq_true]
        intro c hc
        exact (List.mem_filter.mp hc).2
  · intro bc hlong hshort
    have hbc : bc ≠ "" := by
      intro h
      rw [h] at hlong
      simp [String.length] at hlong
    unfold processBarcode
    simp only [hbc, if_neg, if_false]
    split_ifs with h
    · omega
    · rfl

/-- C6: the column interpolated into get_all's ORDER BY always comes from
the fixed allow-list; any other string, the injection text included, falls
back to expiry_date, so the supplied string never reaches the query. -/
theorem get_all_order_by_allowlist (s : String) :
    (orderColumn s = "expiry_date" ∨ orderColumn s = "name" ∨
     orderColumn s = "quantity" ∨ orderColumn s = "created_at" ∨
     orderColumn s = "updated_at") ∧
    (s ≠ "expiry_date" → s ≠ "name" → s ≠ "quantity" → s ≠ "created_at" →
     s ≠ "updated_at" → orderColumn s = "expiry_date") ∧
    getAllSql s = "SELECT * FROM items ORDER BY " ++ orderColumn s ∧
    getAllSql "'; DROP TABLE items; --" = "SELECT * FROM items ORDER BY expiry_date" := by
  have hfall : ∀ t : String, t ≠ "expiry_date" → t ≠ "name" → t ≠ "quantity" →
      t ≠ "created_at" → t ≠ "updated_at" → orderColumn t = "expiry_date" := by
    intro t h1 h2 h3 h4 h5
    unfold orderColumn ORDER_BY_COLUMNS
    simp only [List.lookup, beq_eq_false_iff_ne.mpr h1, beq_eq_false_iff_ne.mpr h2,
      beq_eq_false_iff_ne.mpr h3, beq_eq_false_iff_ne.mpr h4,
      beq_eq_false_iff_ne.mpr h5, Option.getD]
  have hcol : ∀ t : String, orderColumn t = "expiry_date" ∨ orderColumn t = "name" ∨
      orderColumn t = "quantity" ∨ orderColumn t = "created_at" ∨
      orderColumn t = "updated_at" := by
    intro t
    by_cases h1 : t = "expiry_date"
    · subst h1; left; rfl
    by_cases h2 : t = "name"
    · subst h2; right; left; rfl
    by_cases h3 : t = "quantity"
    · subst h3; right; right; left; rfl
    by_cases h4 : t = "created_at"
    · subst h4; right; right; right; left; rfl
    by_cases h5 : t = "updated_at"
    · subst h5; right; right; right; right; rfl
    exact Or.inl (hfall t h1 h2 h3 h4 h5)
  exact ⟨hcol s, hfall s, rfl, by rfl⟩

/-- C7: close_all is idempotent, a second call closing zero further
connections and leaving the state unchanged; the closed flag is set and a
later acquisition fails fast with the pool-closed error instead of
blocking or yielding a connection.  (close_all is total here: the Python
code catches any per-connection close error at lines 151-152.) -/
theorem pool_close_all_idempotent (s : PoolState) :
    DatabasePool.close_all (DatabasePool.close_all s).2 = (0, (DatabasePool.close_all s).2) ∧
    (DatabasePool.close_all s).2.closed = true ∧
    DatabasePool.get_connection (DatabasePool.close_all s).2 =
      AcquireResult.poolClosedError := by
  unfold DatabasePool.close_all DatabasePool.get_connection
  split_ifs <;> simp_all

/-- C9: a decoded code yields a detection event iff it differs from the
last emitted code or more than the two-second debounce window has elapsed
since the last emission; an event records code and time, so a repeat
within the window is suppressed and a repeat after it fires again. -/
theorem barcode_debounce_spec (s : ScanState) (c : String) (t u : ℚ) :
    ((debounceStep s c t).1 = true ↔
      (some c ≠ s.last_barcode ∨ t - s.last_barcode_time > BARCODE_DEBOUNCE_SECONDS)) ∧
    ((debounceStep s c t).1 = true → (debounceStep s c t).2 = ⟨some c, t⟩) ∧
    ((debounceStep s c t).1 = false → (debounceStep s c t).2 = s) ∧
    ((debounceStep s c t).1 = true →
      (u - t ≤ BARCODE_DEBOUNCE_SECONDS →
        (debounceStep (debounceStep s c t).2 c u).1 = false) ∧
      (u - t > BARCODE_DEBOUNCE_SECONDS →
        (debounceStep (debounceStep s c t).2 c u).1 = true)) := by
  refine ⟨?_, ?_, ?_, ?_⟩
  · unfold debounceStep
    split_ifs with h <;> simp [h]
  · unfold debounceStep
    split_ifs with h <;> simp [h]
  · unfold debounceStep
    split_ifs with h <;> simp [h]
  · intro he
    have h2 : (debounceStep s c t).2 = ⟨some c, t⟩ := by
      unfold debounceStep at he ⊢
      split_ifs at he ⊢
      rfl
    rw [h2]
    constructor
    · intro hu
      unfold debounceStep
      rw [if_neg]
      simp only [ne_eq, not_or, not_lt]
      exact ⟨by simp, by linarith⟩
    · intro hu
      unfold debounceStep
      rw [if_pos]
      exact Or.inr (by simpa using hu)

set_option maxRecDepth 4096 in
/-- C1: the query text of get_expiring_soon has no parameter marker — its
`?` sits inside the string literal '+? days' — yet one binding is
supplied, so every call hits the ProgrammingError path and returns the
empty list, whatever the stored rows and the days argument are. -/
theorem get_expiring_soon_always_empty (today : Day) (rows : List ItemRow) (days : Int) :
    ItemRepository.get_expiring_soon today rows days = [] ∧
    sqlPlaceholders expiringSoonSql = 0 := by
  refine ⟨?_, by decide⟩
  unfold ItemRepository.get_expiring_soon
  rw [if_neg (by decide)]

set_option maxRecDepth 4096 in
/-- C4: the DELETE text of cleanup_old_entries likewise has no parameter
marker — its `?` sits inside '-? days' — so every call is caught as a
binding mismatch and returns 0 with the cache unchanged; no row, produce
or not, is ever removed. -/
theorem cleanup_old_entries_never_deletes (now : Int) (cache : List CacheEntry) (days : Int) :
    BarcodeRepository.cleanup_old_entries now cache days = (0, cache) ∧
    sqlPlaceholders cleanupOldEntriesSql = 0 := by
  refine ⟨?_, by decide⟩
  unfold BarcodeRepository.cleanup_old_entries
  rw [if_neg (by decide)]

/-- C3 counterexample: a stored row whose expiry date is corrupted is not
skipped by get_all — it comes back as an item whose expiry date is today
(here day 0). -/
theorem get_all_keeps_corrupted_date_row :
    ItemRepository.get_all 0 [⟨1, "Milk", RawDate.corrupt, none, some 1, 0, RawDate.null⟩] =
      [{ id := some 1, name := "Milk", expiry_date := 0, barcode := none,
         quantity := 1, is_opened := false, opened_date := none }] := by
  decide


/-- C3 amended: a row whose conversion to an Item raises (invalid name,
quantity out of range, future opened date, overlong barcode) is skipped
and every other row is still returned, in order; but a corrupted expiry
date is not such a failure: the row is kept with its expiry date replaced
by today. -/
theorem get_all_skips_only_validation_failures (today : Day) (pre post : List ItemRow)
    (r : ItemRow) :
    ((rowToItem today r).toOption = none →
      ItemRepository.get_all today (pre ++ r :: post) =
        ItemRepository.get_all today pre ++ ItemRepository.get_all today post) ∧
    (∀ it, rowToItem today r = .ok it →
      ItemRepository.get_all today (pre ++ r :: post) =
        ItemRepository.get_all today pre ++ it :: ItemRepository.get_all today post ∧
      (r.expiry_date = RawDate.corrupt → it.expiry_date = today)) := by
  constructor
  · intro h
    unfold ItemRepository.get_all
    simp [List.filterMap_append, List.filterMap_cons, h]
  · intro it h
    constructor
    · unfold ItemRepository.get_all
      simp [List.filterMap_append, List.filterMap_cons, h, Except.toOption]
    · intro hcor
      obtain ⟨-, -, -, -, hexp, -, -⟩ := mkItem_ok_elim h
      rw [hexp, hcor]
      rfl

/-- rowToItem only yields unopened items with a cleared opened date. -/
theorem rowToItem_unopened_no_date {today : Day} {r : ItemRow} {it : Item}
    (h : rowToItem today r = .ok it) (hop : it.is_opened = false) :
    it.opened_date = none := by
  obtain ⟨-, -, ho, -, -, -, hflag⟩ := mkItem_ok_elim h
  rw [← hflag] at ho
  rw [hop] at ho
  unfold validateOpenedDate at ho
  simp at ho
  exact ho.symm

/-- rowToItem stores the row's id. -/
theorem rowToItem_id {today : Day} {r : ItemRow} {it : Item}
    (h : rowToItem today r = .ok it) : it.id = some r.id :=
  (mkItem_ok_elim h).2.2.2.2.2.1

/-- C8: when the id resolves to a stored item, toggle_opened_status flips
the opened flag, sets opened_date to today on a false-to-true transition
and clears it on a true-to-false one, persists exactly that item at that
id (every other row untouched) and reports True; an unknown id reports
False and changes nothing. -/
theorem toggle_opened_status_spec (today : Day) (db : List ItemRow) (item_id : Nat) :
    (ItemRepository.get_by_id today db item_id = none →
      ItemRepository.toggle_opened_status today db item_id = (false, db)) ∧
    (∀ it, ItemRepository.get_by_id today db item_id = some it →
      ItemRepository.toggle_opened_status today db item_id =
        (true, db.map (fun r => if r.id == item_id then
            itemToRow { it with is_opened := !it.is_opened, opened_date := (if it.is_opened then none else some today) } item_id
          else r))) := by
  constructor
  · intro h
    unfold ItemRepository.toggle_opened_status
    rw [h]
  · intro it h
    have hr : ∃ r, db.find? (fun r => r.id == item_id) = some r ∧
        rowToItem today r = .ok it := by
      unfold ItemRepository.get_by_id at h
      cases hf : db.find? (fun r => r.id == item_id) with
      | none => rw [hf] at h; cases h
      | some r =>
        rw [hf] at h
        change (rowToItem today r).toOption = some it at h
        refine ⟨r, rfl, ?_⟩
        cases hc : rowToItem today r with
        | error e => rw [hc] at h; simp [Except.toOption] at h
        | ok it2 =>
          rw [hc] at h
          simp [Except.toOption] at h
          rw [h]
    obtain ⟨r, hf, hok⟩ := hr
    have hid : it.id = some r.id := rowToItem_id hok
    have hbeq : (r.id == item_id) = true := by
      have := List.find?_some hf
      simpa using this
    have hrid : r.id = item_id := by simpa using hbeq
    have hmem : r ∈ db := List.mem_of_find?_eq_some hf
    have hany : db.any (fun x => x.id == item_id) = true :=
      List.any_eq_true.mpr ⟨r, hmem, hbeq⟩
    simp only [ItemRepository.toggle_opened_status, h, ItemRepository.update]
    rw [hid, hrid]
    cases hop : it.is_opened with
    | false =>
      have hod := rowToItem_unopened_no_date hok hop
      simp [hany, hop, hod]
    | true => simp [hany, hop]

/-- A map that fixes every element of a list is the identity on it. -/
theorem map_id_of_fix {α : Type} {l : List α} {f : α → α}
    (h : ∀ a ∈ l, f a = a) : l.map f = l := by
  induction l with
  | nil => rfl
  | cons x xs ih =>
    simp only [List.map_cons, h x (by simp)]
    rw [ih (fun a ha => h a (by simp [ha]))]

/-- find? skips a prefix on which the predicate is everywhere false. -/
theorem find?_append_of_none {α : Type} {l1 l2 : List α} {p : α → Bool}
    (h : ∀ a ∈ l1, p a = false) : (l1 ++ l2).find? p = l2.find? p := by
  induction l1 with
  | nil => rfl
  | cons x xs ih =>
    simp only [List.cons_append, List.find?, h x (by simp)]
    exact ih (fun a ha => h a (by simp [ha]))

/-- C5: on a local-cache miss and an external hit, lookup_product saves
the external result into the cache before returning it, and a subsequent
local lookup of the same barcode is a hit with source "local" carrying
that name, brand and category. -/
theorem lookup_product_populates_cache (now : Int) (cache : List CacheEntry)
    (ext : String → Option ExtProduct) (b : String) (p : ExtProduct)
    (hb : b ≠ "") (hmiss : (BarcodeRepository.lookup now cache b).1 = none)
    (hext : ext b = some p) (hname : p.name ≠ "") :
    ∃ cache3,
      BarcodeService.lookup_product now cache ext b =
        .ok (⟨b, p.name, p.brand, p.category, "openfoodfacts"⟩, cache3) ∧
      ∀ now2, (BarcodeRepository.lookup now2 cache3 b).1 =
        some ⟨b, p.name, p.brand, p.category, "local"⟩ := by
  have hfind : (cache.map (fun e =>
      if e.barcode == b then { e with last_used := now } else e)).find?
        (fun e => e.barcode == b) = none := by
    unfold BarcodeRepository.lookup at hmiss
    rw [if_neg hb] at hmiss
    cases hcf : (cache.map (fun e =>
        if e.barcode == b then { e with last_used := now } else e)).find?
          (fun e => e.barcode == b) with
    | some e =>
      simp only [hcf] at hmiss
      simp at hmiss
    | none => rfl
  have hno : ∀ e ∈ cache, (e.barcode == b) = false := by
    intro e he
    have hbar : ∀ (ts : Int),
        ((if e.barcode == b then { e with last_used := ts } else e) :
          CacheEntry).barcode = e.barcode := by
      intro ts
      by_cases hc : (e.barcode == b) = true <;> simp [hc]
    have := List.find?_eq_none.mp hfind _ (List.mem_map_of_mem _ he)
    rw [hbar now] at this
    simpa using this
  have hmapid : ∀ (ts : Int), cache.map (fun e =>
      if e.barcode == b then { e with last_used := ts } else e) = cache := by
    intro ts
    exact map_id_of_fix (fun e he => by simp [hno e he])
  have hlk : BarcodeRepository.lookup now cache b = (none, cache) := by
    unfold BarcodeRepository.lookup
    rw [if_neg hb]
    simp only [hmapid now] at hfind
    simp only [hmapid now, hfind]
  have hanyb : cache.any (fun x => x.barcode == b) = false := by
    rw [List.any_eq_false]
    intro e he
    simp [hno e he]
  refine ⟨cache ++ [⟨b, p.name, p.brand, p.category, now⟩], ?_, ?_⟩
  · simp only [BarcodeService.lookup_product, hlk, hext, BarcodeRepository.save,
      insertOrReplace]
    simp [hb, hname, hanyb]
  · intro now2
    unfold BarcodeRepository.lookup
    rw [if_neg hb]
    rw [List.map_append, hmapid now2]
    have hself : (("" : String) ≠ b) ∨ True := Or.inr trivial
    have hred : ([(⟨b, p.name, p.brand, p.category, now⟩ : CacheEntry)].map
        (fun e => if e.barcode == b then { e with last_used := now2 } else e)) =
        [⟨b, p.name, p.brand, p.category, now2⟩] := by
      simp
    rw [hred]
    simp [find?_append_of_none (fun e he => hno e he), List.find?]

/-- A concrete external oracle: one product behind barcode B1. -/
def extOracleExample : String → Option ExtProduct :=
  fun s => if s = "B1" then some ⟨"Beans", none, none⟩ else none

/-- C5 witness: from the empty cache, looking up B1 populates the cache
and a later local lookup hits. -/
theorem lookup_product_populates_cache_witness :
    ∃ cache3,
      BarcodeService.lookup_product 0 [] extOracleExample "B1" =
        .ok (⟨"B1", "Beans", none, none, "openfoodfacts"⟩, cache3) ∧
      ∀ now2, (BarcodeRepository.lookup now2 cache3 "B1").1 =
        some ⟨"B1", "Beans", none, none, "local"⟩ :=
  lookup_product_populates_cache 0 [] extOracleExample "B1" ⟨"Beans", none, none⟩
    (by decide) (by rfl) (by rfl) (by decide)

/-- C3 witness: a row with an empty name is skipped by get_all. -/
theorem get_all_skips_only_validation_failures_witness :
    ItemRepository.get_all 0
        ([] ++ (⟨1, "", RawDate.valid 5, none, some 1, 0, RawDate.null⟩ : ItemRow) :: []) =
      ItemRepository.get_all 0 [] ++ ItemRepository.get_all 0 [] :=
  (get_all_skips_only_validation_failures 0 [] []
    ⟨1, "", RawDate.valid 5, none, some 1, 0, RawDate.null⟩).1 (by rfl)

/-- C6 witness: an unknown column name falls back to expiry_date. -/
theorem get_all_order_by_allowlist_witness :
    orderColumn "bogus" = "expiry_date" :=
  (get_all_order_by_allowlist "bogus").2.1 (by decide) (by decide) (by decide)
    (by decide) (by decide)

/-- C8 witness: toggling item 1 of a one-row table from closed to opened
stores is_opened = 1 with opened_date = today and reports True. -/
theorem toggle_opened_status_spec_witness :
    ItemRepository.toggle_opened_status 0
        [⟨1, "Milk", RawDate.valid 5, none, some 1, 0, RawDate.null⟩] 1 =
      (true, [⟨1, "Milk", RawDate.valid 5, none, some 1, 1, RawDate.valid 0⟩]) := by
  have h := (toggle_opened_status_spec 0
      [⟨1, "Milk", RawDate.valid 5, none, some 1, 0, RawDate.null⟩] 1).2
    { id := some 1, name := "Milk", expiry_date := 5, barcode := none,
      quantity := 1, is_opened := false, opened_date := none } (by decide)
  rw [h]
  decide

/-- C9 witness: code X at t = 10 fires; the same code at t = 11 (within
the window) is suppressed; at t = 13 (past the window) it fires again. -/
theorem barcode_debounce_spec_witness :
    (debounceStep ⟨none, 0⟩ "X" 10).1 = true ∧
    (debounceStep (debounceStep ⟨none, 0⟩ "X" 10).2 "X" 11).1 = false ∧
    (debounceStep (debounceStep ⟨none, 0⟩ "X" 10).2 "X" 13).1 = true := by
  refine ⟨?_, ?_, ?_⟩
  · exact (barcode_debounce_spec ⟨none, 0⟩ "X" 10 11).1.mpr (Or.inl (by simp))
  · exact ((barcode_debounce_spec ⟨none, 0⟩ "X" 10 11).2.2.2
      ((barcode_debounce_spec ⟨none, 0⟩ "X" 10 11).1.mpr (Or.inl (by simp)))).1
      (by norm_num [BARCODE_DEBOUNCE_SECONDS])
  · exact ((barcode_debounce_spec ⟨none, 0⟩ "X" 10 13).2.2.2
      ((barcode_debounce_spec ⟨none, 0⟩ "X" 10 13).1.mpr (Or.inl (by simp)))).2
      (by norm_num [BARCODE_DEBOUNCE_SECONDS])
